import Mathlib

/-!
Verification of the Ollama question-generation subsystem of the
IGCSEStudentGuide repository (scripts/ollama_generation/*).

Shallow embedding conventions:
* Python ints are modelled as `Int` (or `Nat` where the source value is a
  count that cannot be negative), Python floats as `ℚ` (the float literals
  in the source are small decimals, embedded as exact rationals).
* Fallible constructions (`__post_init__` raising `ValueError`) are
  modelled as functions into `Except String _`.
* External effects (the Ollama chat endpoint, the database) are modelled
  as oracle parameters: a function from the attempt number to the outcome
  that the external world produces for that attempt.
-/

namespace OllamaGen

/-! ## base_models.py -/

/-- `GenerationConfig` from base_models.py (the fields the verified code
paths read). -/
structure GenerationConfig where
  model : String := "gemma3:4b"
  temperature : ℚ := 7/10
  max_tokens : Int := 2000
  timeout_seconds : Int := 120
  max_retries : Nat := 3
  batch_size : Nat := 10

/-- `ExamQuestion` from base_models.py: the dataclass fields. -/
structure ExamQuestion where
  question_text : String
  marks : Int
  answer_text : String
  explanation : String
  question_order : Int
  question_type : String := "structured"
deriving DecidableEq, Repr

/-- Python whitespace, as used by `str.strip()`. -/
def isPyWs (c : Char) : Bool :=
  (c == ' ') || (c == '\t') || (c == '\n') || (c == '\r')
    || (c == '\x0b') || (c == '\x0c')

/-- Python `s.strip()`: drop whitespace from both ends. -/
def pyStrip (s : String) : List Char :=
  ((s.toList.dropWhile isPyWs).reverse.dropWhile isPyWs).reverse

/-- `ExamQuestion.__post_init__`: validation performed at construction,
returning the validated object or the `ValueError` message. -/
def mkExamQuestion (question_text : String) (marks : Int) (answer_text : String)
    (explanation : String) (question_order : Int)
    (question_type : String := "structured") : Except String ExamQuestion :=
  if question_text = "" ∨ (pyStrip question_text).length < 20 then
    .error "Exam question text must be at least 20 characters"
  else if answer_text = "" ∨ (pyStrip answer_text).length < 10 then
    .error "Answer text must be at least 10 characters"
  else if ¬ (1 ≤ marks ∧ marks ≤ 20) then
    .error "Marks must be between 1 and 20"
  else if question_order < 1 then
    .error "Question order must be positive"
  else
    .ok ⟨question_text, marks, answer_text, explanation, question_order, question_type⟩

/-- `ExamPaper` from base_models.py: the dataclass fields. -/
structure ExamPaper where
  title : String
  instructions : String
  duration_minutes : Int
  total_marks : Int
  questions : List ExamQuestion
  topic_id : String
  subject_name : String
  difficulty_level : Int := 3
deriving DecidableEq, Repr

/-- Sum of the marks of a list of exam questions
(`sum(q.marks for q in self.questions)`). -/
def marksSum (qs : List ExamQuestion) : Int :=
  (qs.map (·.marks)).sum

/-- `ExamPaper.__post_init__`: validation performed at construction, in
source order, returning the validated object or the `ValueError` message. -/
def mkExamPaper (title instructions : String) (duration_minutes total_marks : Int)
    (questions : List ExamQuestion) (topic_id subject_name : String)
    (difficulty_level : Int := 3) : Except String ExamPaper :=
  if title = "" ∨ instructions = "" then
    .error "Title and instructions are required"
  else if questions = [] then
    .error "Exam paper must have at least one question"
  else if duration_minutes < 10 then
    .error "Duration must be at least 10 minutes"
  else if total_marks < 1 then
    .error "Total marks must be positive"
  else if marksSum questions ≠ total_marks then
    .error "Question marks do not match total marks"
  else
    .ok ⟨title, instructions, duration_minutes, total_marks, questions,
         topic_id, subject_name, difficulty_level⟩

/-! ## quality_validator.py : severities, issues, quality score -/

/-- `ValidationSeverity` enum. -/
inductive ValidationSeverity where
  | info
  | warning
  | error
  | critical
deriving DecidableEq, Repr

/-- `ValidationIssue` dataclass. -/
structure ValidationIssue where
  severity : ValidationSeverity
  message : String
  field : String
  suggestion : Option String := none
deriving DecidableEq, Repr

/-- Per-issue deduction applied by
`QuestionQualityValidator._calculate_quality_score`. -/
def severityDeduction : ValidationSeverity → ℚ
  | .critical => 3/10
  | .error => 2/10
  | .warning => 1/10
  | .info => 1/20

/-- `QuestionQualityValidator._calculate_quality_score`: start from 1.0,
subtract the per-severity deduction for each issue, clamp to [0, 1]. -/
def calculateQualityScore (issues : List ValidationIssue) : ℚ :=
  let base := issues.foldl (fun s i => s - severityDeduction i.severity) 1
  max 0 (min 1 base)

/-- Number of issues in `l` with severity `s`, as a rational. -/
def countSeverity (l : List ValidationIssue) (s : ValidationSeverity) : ℚ :=
  ((l.filter (fun i => i.severity = s)).length : ℚ)

/-- `TopicInfo` from base_models.py: the dataclass fields. -/
structure TopicInfo where
  id : String
  title : String
  subject_name : String
  difficulty_level : Int
  syllabus_code : String
  description : String
  learning_objectives : List String := []
deriving DecidableEq, Repr

/-! ## batch_generator.py : needs analysis and batch runs -/

/-- `BatchGenerationConfig` dataclass with its dataclass defaults. -/
structure BatchGenerationConfig where
  max_concurrent_generations : Nat := 3
  delay_between_generations : ℚ := 2
  max_daily_generations : Nat := 100
  min_questions_per_topic : Int := 20
  target_questions_per_topic : Int := 50
  quality_threshold : ℚ := 7/10
  retry_failed_generations : Bool := true
  max_retries_per_topic : Nat := 2

/-- Priority labels used by `analyze_generation_needs`. -/
inductive Priority where
  | high
  | medium
  | low
deriving DecidableEq, Repr

/-- `TopicGenerationNeed` dataclass (the `last_generation_date` field is
never set by the analyzed code and is omitted). -/
structure TopicGenerationNeed where
  topic_info : TopicInfo
  current_question_count : Int
  needed_questions : Int
  priority : Priority
deriving DecidableEq, Repr

/-- One row of the `get_topic_question_counts` RPC result. -/
structure TopicCountRow where
  topic_id : String
  subject_name : String
  total_questions : Int
deriving DecidableEq, Repr

/-- The per-row body of the loop in `analyze_generation_needs`: subject
filter, priority classification, need formula capped at 20, and the
`get_topic_info` database lookup (modelled by the `lookup` oracle);
returns `none` for rows the loop `continue`s past. -/
def classifyTopic (cfg : BatchGenerationConfig) (lookup : String → Option TopicInfo)
    (subjectFilter : Option String) (row : TopicCountRow) :
    Option TopicGenerationNeed :=
  let skip : Bool := match subjectFilter with
    | some f => row.subject_name != f
    | none => false
  let current := row.total_questions
  let build : Priority → Int → Option TopicGenerationNeed := fun priority needed =>
    match lookup row.topic_id with
    | none => none
    | some info =>
      some { topic_info := info
             current_question_count := current
             needed_questions := min needed 20
             priority := priority }
  if skip then
    none
  else if current < cfg.min_questions_per_topic then
    build .high (cfg.target_questions_per_topic - current)
  else if current < cfg.target_questions_per_topic then
    build .medium (cfg.target_questions_per_topic - current)
  else
    none

/-- `priority_weight` dictionary inside the sort key. -/
def priorityWeight : Priority → Nat
  | .high => 3
  | .medium => 2
  | .low => 1

/-- Ordering used to model `needs.sort(key=(weight, needed), reverse=True)`:
`a` may precede `b` iff `a`'s key is lexicographically ≥ `b`'s. -/
def needLe (a b : TopicGenerationNeed) : Bool :=
  decide (priorityWeight b.priority < priorityWeight a.priority)
    || (decide (priorityWeight a.priority = priorityWeight b.priority)
        && decide (b.needed_questions ≤ a.needed_questions))

/-- `analyze_generation_needs`: classify every row, drop the excluded
ones, and stably sort by (priority weight, needed count) descending. -/
def analyzeGenerationNeeds (cfg : BatchGenerationConfig)
    (lookup : String → Option TopicInfo) (subjectFilter : Option String)
    (rows : List TopicCountRow) : List TopicGenerationNeed :=
  (rows.filterMap (classifyTopic cfg lookup subjectFilter)).mergeSort needLe

/-- `BatchGenerationResult` dataclass (the wall-clock
`processing_time_seconds` field is real time and is not modelled). -/
structure BatchGenerationResult where
  total_topics_processed : Nat
  successful_generations : Nat
  failed_generations : Nat
  total_questions_generated : Nat
  average_quality_score : ℚ
  errors : List String := []
deriving DecidableEq, Repr

/-- Outcome of `generate_for_topic` for one topic, as the tuple
`(success, question_count, errors)` the coroutine returns. -/
def TopicOutcome := Bool × Nat × List String

/-- The task-processing loop of `run_batch_generation`: fold the per-need
outcomes, counting successes and failures, accumulating questions, the
`0.8` quality placeholder per success, error messages, and bumping the
daily generation counter by the question count of each success. -/
def processTasks (outcome : TopicGenerationNeed → TopicOutcome)
    (tasks : List TopicGenerationNeed) (daily : Nat) :
    Nat × Nat × Nat × List ℚ × List String × Nat :=
  tasks.foldl
    (fun acc need =>
      let (succ, failed, totalQ, scores, errs, d) := acc
      let (ok, qcount, es) := outcome need
      if ok then
        (succ + 1, failed, totalQ + qcount, scores ++ [4/5], errs, d + qcount)
      else
        (succ, failed + 1, totalQ, scores, errs ++ es, d))
    (0, 0, 0, [], [], daily)

/-- `run_batch_generation`, with the database and the generation
coroutines abstracted into the already-analyzed `needs` list and the
per-topic `outcome` oracle.  Returns the `BatchGenerationResult` together
with the updated daily generation counter. -/
def runBatchGeneration (cfg : BatchGenerationConfig) (daily : Nat)
    (needs : List TopicGenerationNeed)
    (outcome : TopicGenerationNeed → TopicOutcome)
    (maxTopics : Option Nat) : BatchGenerationResult × Nat :=
  if cfg.max_daily_generations ≤ daily then
    ({ total_topics_processed := 0
       successful_generations := 0
       failed_generations := 0
       total_questions_generated := 0
       average_quality_score := 0
       errors := ["Daily generation limit reached"] }, daily)
  else if needs = [] then
    ({ total_topics_processed := 0
       successful_generations := 0
       failed_generations := 0
       total_questions_generated := 0
       average_quality_score := 0
       errors := [] }, daily)
  else
    let needs1 := match maxTopics with
      | some m => if m = 0 then needs else needs.take m
      | none => needs
    let remaining := cfg.max_daily_generations - daily
    if remaining = 0 then
      ({ total_topics_processed := 0
         successful_generations := 0
         failed_generations := 0
         total_questions_generated := 0
         average_quality_score := 0
         errors := ["No remaining daily budget"] }, daily)
    else
      let tasks := needs1.take remaining
      let (succ, failed, totalQ, scores, errs, d) := processTasks outcome tasks daily
      ({ total_topics_processed := tasks.length
         successful_generations := succ
         failed_generations := failed
         total_questions_generated := totalQ
         average_quality_score := if scores = [] then 0 else scores.sum / scores.length
         errors := errs }, d)

/-! ## core_generator.py : the model-call adapter `_call_ollama` -/

/-- The request `_call_ollama` sends to the chat endpoint on every attempt.
The client API accepts an optional per-request timeout; the source passes
only the model, the two sampling options and the messages, so the timeout
slot of the request is empty. -/
structure ChatRequest where
  model : String
  temperature : ℚ
  num_predict : Int
  timeout : Option Int
deriving DecidableEq, Repr

/-- The chat request constructed inside `_call_ollama` from the
generation config (`options = temperature, num_predict`; no timeout
argument appears in the call). -/
def mkChatRequest (cfg : GenerationConfig) : ChatRequest :=
  { model := cfg.model
    temperature := cfg.temperature
    num_predict := cfg.max_tokens
    timeout := none }

/-- `_call_ollama`'s retry loop, embedded over an oracle giving each
attempt's outcome (`some text` = the chat call returns `text`, `none` = it
raises).  `attempt` is the current 0-indexed attempt number, the fuel is
the number of attempts still allowed.  Returns the final result, the
number of attempts made, and the list of back-off sleeps (in seconds)
performed between attempts, in order. -/
def callOllamaAux (oracle : Nat → Option String) (attempt : Nat) :
    Nat → Option String × Nat × List Nat
  | 0 => (none, 0, [])
  | fuel + 1 =>
    match oracle attempt with
    | some s => (some s, 1, [])
    | none =>
      if fuel = 0 then
        (none, 1, [])
      else
        let r := callOllamaAux oracle (attempt + 1) fuel
        (r.1, r.2.1 + 1, 2 ^ attempt :: r.2.2)

/-- `_call_ollama`: run the retry loop for `config.max_retries` attempts
starting at attempt 0. -/
def callOllama (oracle : Nat → Option String) (cfg : GenerationConfig) :
    Option String × Nat × List Nat :=
  callOllamaAux oracle 0 cfg.max_retries

/-! ## core_generator.py : `generate_exam_paper` -/

/-- One question dict of a parsed exam-generation reply; `none` fields
are keys absent from the JSON. -/
structure RawExamQuestion where
  question_text : Option String
  marks : Option Int
  answer_text : Option String
  explanation : Option String
  question_order : Option Int
  question_type : Option String
deriving DecidableEq, Repr

/-- A parsed exam-generation reply (the JSON dict extracted from the
model response); `none` fields are absent keys, `questions` defaults to
the empty list as in `result.get('questions', [])`. -/
structure ExamJson where
  title : Option String
  instructions : Option String
  duration_minutes : Option Int
  questions : List RawExamQuestion
deriving DecidableEq, Repr

/-- The per-question body of the conversion loop in `generate_exam_paper`:
skip the dict if one of the required keys `question_text`, `marks`,
`answer_text` is missing, otherwise construct an `ExamQuestion` (skipping
it when construction raises). -/
def buildExamQuestion (orderDefault : Int) (q : RawExamQuestion) :
    Option ExamQuestion :=
  match q.question_text, q.marks, q.answer_text with
  | some qt, some mks, some ans =>
    match mkExamQuestion qt mks ans (q.explanation.getD "")
        (q.question_order.getD orderDefault) (q.question_type.getD "structured") with
    | .ok eq => some eq
    | .error _ => none
  | _, _, _ => none

/-- The conversion loop of `generate_exam_paper`: accumulate the
constructible questions, using `len(attempt_questions) + 1` as the default
question order. -/
def buildAttemptQuestions (qs : List RawExamQuestion) : List ExamQuestion :=
  qs.foldl
    (fun acc q =>
      match buildExamQuestion ((acc.length : Int) + 1) q with
      | some eq => acc ++ [eq]
      | none => acc)
    []

/-- Acceptance test of one attempt: non-empty question list and summed
marks within 20% of the requested total
(`attempt_questions and abs(total_marks_check - total_marks) <= total_marks * 0.2`). -/
def examAccepted (total : Int) (qs : List ExamQuestion) : Bool :=
  decide (qs ≠ [])
    && decide (|(marksSum qs : ℚ) - (total : ℚ)| ≤ (total : ℚ) * (2/10))

/-- The attempt loop of `generate_exam_paper`: up to `fuel` further
attempts starting at `attempt`; each attempt's parsed reply comes from the
oracle (`none` = no response or unparsable response, both `continue`);
the first accepted attempt wins and its reply and question list are
returned. -/
def examAttemptLoop (oracle : Nat → Option ExamJson) (total : Int) :
    Nat → Nat → Option (ExamJson × List ExamQuestion)
  | _, 0 => none
  | attempt, fuel + 1 =>
    match oracle attempt with
    | none => examAttemptLoop oracle total (attempt + 1) fuel
    | some result =>
      let qs := buildAttemptQuestions result.questions
      if examAccepted total qs then
        some (result, qs)
      else
        examAttemptLoop oracle total (attempt + 1) fuel

/-- `generate_exam_paper`: run up to `max_attempts = 3` attempts; on
success construct the `ExamPaper` with `total_marks` recomputed as the
actual sum of accepted question marks (never the requested figure), with
the source defaults for title, instructions and duration; a construction
error is caught and yields `None`. -/
def generateExamPaper (oracle : Nat → Option ExamJson) (topic : TopicInfo)
    (total_marks : Int) : Option ExamPaper :=
  match examAttemptLoop oracle total_marks 0 3 with
  | none => none
  | some (result, qs) =>
    let actual := marksSum qs
    match mkExamPaper
        (result.title.getD (topic.subject_name ++ ": " ++ topic.title))
        (result.instructions.getD "Answer ALL questions. Show all working clearly.")
        (result.duration_minutes.getD (if actual ≤ 20 then 60 else 90))
        actual qs topic.id topic.subject_name topic.difficulty_level with
    | .ok p => some p
    | .error _ => none

/-! ## quality_validator.py : `validate_quiz_question` -/

/-- `QuestionType` enum. -/
inductive QuestionType where
  | multiple_choice
  | true_false
  | short_answer
  | essay
deriving DecidableEq, Repr

/-- `QuizQuestion` from base_models.py: the dataclass fields read by the
validator (generation metadata omitted).  `options` is the optional dict,
modelled as an association list in insertion order. -/
structure QuizQuestion where
  question_text : String
  question_type : QuestionType
  correct_answer : String
  explanation : String
  points : Int := 1
  difficulty_level : Int := 3
  options : Option (List (String × String)) := none
  hint : Option String := none
  tags : List String := []
deriving DecidableEq, Repr

/-- Python `needle in hay` on strings: contiguous substring test. -/
def strInL (needle : List Char) : List Char → Bool
  | [] => needle.isEmpty
  | c :: t => needle.isPrefixOf (c :: t) || strInL needle t

/-- Python `s.lower()` (ASCII case fold suffices here). -/
def pyLower (s : List Char) : List Char :=
  s.map Char.toLower

/-- `poor_quality_indicators` from the validator. -/
def poorQualityIndicators : List String :=
  ["i don\x27t know", "not sure", "maybe", "probably", "i think",
   "lorem ipsum", "placeholder", "example", "test question"]

/-- `academic_indicators` from the validator. -/
def academicIndicators : List String :=
  ["analyze", "evaluate", "compare", "contrast", "explain", "describe",
   "calculate", "determine", "identify", "classify", "interpret"]

/-- `_validate_question_text`. -/
def validateQuestionText (text : String) : List ValidationIssue :=
  if text = "" ∨ pyStrip text = [] then
    [⟨.critical, "Question text is empty", "question_text", none⟩]
  else
    let textClean := pyStrip text
    (if textClean.length < 20 then
      [⟨.error, "Question text too short", "question_text",
        some "Provide more detailed question text"⟩]
     else [])
    ++ (if textClean.length > 500 then
      [⟨.warning, "Question text very long", "question_text",
        some "Consider breaking into multiple questions"⟩]
     else [])
    ++ (if textClean.getLast? ≠ some '?'
          ∧ ¬ (["calculate", "determine", "find", "show"].any
                (fun w => strInL w.toList (pyLower textClean))) then
      [⟨.warning,
        "Question text should end with a question mark or be a clear instruction",
        "question_text", some "Use clear instructional language"⟩]
     else [])
    ++ poorQualityIndicators.filterMap (fun ind =>
      if strInL ind.toList (pyLower textClean) then
        some ⟨.error, "Contains poor quality indicator: " ++ ind,
          "question_text", some "Remove placeholder or uncertain language"⟩
      else none)

/-- `_validate_multiple_choice_options`. -/
def validateMultipleChoiceOptions (options : Option (List (String × String)))
    (correct_answer : String) : List ValidationIssue :=
  match options with
  | none => [⟨.critical, "Multiple choice question missing options", "options", none⟩]
  | some opts =>
    if opts = [] then
      [⟨.critical, "Multiple choice question missing options", "options", none⟩]
    else
      let keys := opts.map Prod.fst
      let vals := opts.map Prod.snd
      (if opts.length < 4 then
        [⟨.error, "Insufficient options", "options",
          some "Provide 4 distinct options"⟩]
       else [])
      ++ ((["A", "B", "C", "D"].take opts.length).filterMap (fun label =>
        if ¬ keys.contains label then
          some ⟨.error, "Missing option label " ++ label, "options",
            some "Use standard labels"⟩
        else none))
      ++ (if ¬ keys.contains correct_answer then
        [⟨.critical, "Correct answer not found in options", "correct_answer",
          some "Ensure correct answer matches one of the option labels"⟩]
       else [])
      ++ (if vals.eraseDups.length ≠ vals.length then
        [⟨.error, "Duplicate option texts found", "options",
          some "Ensure all options are distinct"⟩]
       else [])
      ++ opts.filterMap (fun kv =>
        if kv.2 = "" ∨ (pyStrip kv.2).length < 3 then
          some ⟨.error, "Option " ++ kv.1 ++ " is too short", "options",
            some "Provide meaningful option text"⟩
        else none)

/-- `_validate_explanation`. -/
def validateExplanation (explanation : String) : List ValidationIssue :=
  if explanation = "" ∨ pyStrip explanation = [] then
    [⟨.error, "Explanation is missing", "explanation",
      some "Provide detailed explanation of the correct answer"⟩]
  else
    let clean := pyStrip explanation
    (if clean.length < 30 then
      [⟨.warning, "Explanation too short", "explanation",
        some "Provide more detailed explanation"⟩]
     else [])
    ++ (if clean.length > 1000 then
      [⟨.warning, "Explanation very long", "explanation",
        some "Consider condensing the explanation"⟩]
     else [])

/-- `_validate_correct_answer`. -/
def validateCorrectAnswer (correct_answer : String) (qtype : QuestionType)
    (options : Option (List (String × String))) : List ValidationIssue :=
  if correct_answer = "" ∨ pyStrip correct_answer = [] then
    [⟨.critical, "Correct answer is missing", "correct_answer", none⟩]
  else
    match options with
    | some opts =>
      if qtype = .multiple_choice ∧ opts ≠ []
          ∧ ¬ (opts.map Prod.fst).contains correct_answer then
        [⟨.critical, "Correct answer not in options", "correct_answer", none⟩]
      else []
    | none => []

/-- `_validate_academic_quality`. -/
def validateAcademicQuality (question_text explanation_text : String) :
    List ValidationIssue :=
  let combined := pyLower (question_text ++ " " ++ explanation_text).toList
  (if (academicIndicators.filter (fun ind => strInL ind.toList combined)).length = 0 then
    [⟨.info, "Consider using more academic vocabulary", "academic_quality",
      some "Include analytical verbs"⟩]
   else [])
  ++ (match question_text.toList with
      | c :: _ =>
        if ¬ c.isUpper then
          [⟨.warning, "Question should start with capital letter", "question_text",
            some "Capitalize the first letter"⟩]
        else []
      | [] => [])

/-- `ValidationResult` dataclass. -/
structure ValidationResult where
  is_valid : Bool
  quality_score : ℚ
  issues : List ValidationIssue
deriving DecidableEq, Repr

/-- `validate_quiz_question`: collect the five issue groups in source
order, compute the quality score, and declare the question valid iff no
issue has severity error or critical. -/
def validateQuizQuestion (q : QuizQuestion) : ValidationResult :=
  let issues :=
    validateQuestionText q.question_text
    ++ (if q.question_type = .multiple_choice then
          validateMultipleChoiceOptions q.options q.correct_answer
        else [])
    ++ validateExplanation q.explanation
    ++ validateCorrectAnswer q.correct_answer q.question_type q.options
    ++ validateAcademicQuality q.question_text q.explanation
  { is_valid :=
      !(issues.any (fun i => decide (i.severity = .critical ∨ i.severity = .error)))
    quality_score := calculateQualityScore issues
    issues := issues }

/-! ## core_generator.py : `generate_quiz_questions` -/

/-- One question dict of a parsed quiz-generation reply; `none` fields
are keys absent from the JSON (`options` and the numeric fields have
`.get` defaults in the source). -/
structure RawQuizQuestion where
  question_text : Option String
  options : Option (List (String × String))
  correct_answer : Option String
  explanation : Option String
  difficulty_level : Option Int
  points : Option Int
  tags : List String := []
deriving DecidableEq, Repr

/-- `QuizQuestion.__post_init__`: validation performed at construction
(the generation-timestamp bookkeeping is not modelled). -/
def mkQuizQuestion (question_text : String) (question_type : QuestionType)
    (options : Option (List (String × String)))
    (correct_answer explanation : String) (difficulty_level points : Int)
    (tags : List String) : Except String QuizQuestion :=
  if question_text = "" ∨ (pyStrip question_text).length < 10 then
    .error "Question text must be at least 10 characters"
  else if correct_answer = "" then
    .error "Correct answer is required"
  else if explanation = "" ∨ (pyStrip explanation).length < 10 then
    .error "Explanation must be at least 10 characters"
  else if question_type = .multiple_choice ∧ (options.getD []).length < 2 then
    .error "Multiple choice questions must have at least 2 options"
  else if ¬ (1 ≤ points ∧ points ≤ 10) then
    .error "Points must be between 1 and 10"
  else if ¬ (1 ≤ difficulty_level ∧ difficulty_level ≤ 5) then
    .error "Difficulty level must be between 1 and 5"
  else
    .ok { question_text := question_text
          question_type := question_type
          correct_answer := correct_answer
          explanation := explanation
          points := points
          difficulty_level := difficulty_level
          options := options
          tags := tags }

/-- The per-question body of the conversion loop in
`generate_quiz_questions`: a missing required key or a construction error
skips the question. -/
def buildQuizQuestion (topicDifficulty : Int) (r : RawQuizQuestion) :
    Option QuizQuestion :=
  match r.question_text, r.correct_answer, r.explanation with
  | some qt, some ca, some ex =>
    match mkQuizQuestion qt .multiple_choice (some (r.options.getD [])) ca ex
        (r.difficulty_level.getD topicDifficulty) (r.points.getD 1) r.tags with
    | .ok q => some q
    | .error _ => none
  | _, _, _ => none

/-- The conversion loop for one batch reply. -/
def buildQuizBatch (topicDifficulty : Int) (raws : List RawQuizQuestion) :
    List QuizQuestion :=
  raws.filterMap (buildQuizQuestion topicDifficulty)

/-- The `while remaining_questions > 0` loop of `generate_quiz_questions`
with an explicit fuel bound: `none` means the fuel ran out with the loop
still running (the source loop has no such bound — it would keep calling
the model).  The oracle gives batch `batchNum`'s parsed reply; `none`
covers both a missing response and an unparsable reply, which `break`. -/
def quizLoop (oracle : Nat → Option (List RawQuizQuestion))
    (topicDifficulty : Int) :
    Int → List QuizQuestion → Nat → Nat → Option (List QuizQuestion)
  | _, _, _, 0 => none
  | remaining, acc, batchNum, fuel + 1 =>
    if remaining ≤ 0 then
      some acc
    else
      match oracle batchNum with
      | none => some acc
      | some raws =>
        let batch := buildQuizBatch topicDifficulty raws
        quizLoop oracle topicDifficulty (remaining - batch.length)
          (acc ++ batch) (batchNum + 1) fuel

/-- `generate_quiz_questions` under a fuel bound: start with all
`question_count` questions remaining, empty accumulator, batch 1. -/
def generateQuizQuestions (oracle : Nat → Option (List RawQuizQuestion))
    (topicDifficulty : Int) (question_count : Int) (fuel : Nat) :
    Option (List QuizQuestion) :=
  quizLoop oracle topicDifficulty question_count [] 1 fuel

/-- A reply question that parses but is never constructible: its text is
shorter than the 10 characters `QuizQuestion.__post_init__` requires. -/
def badRawQuiz : RawQuizQuestion :=
  { question_text := some "Short?"
    options := some [("A", "first option"), ("B", "second option"),
                     ("C", "third option"), ("D", "fourth option")]
    correct_answer := some "A"
    explanation := some "A sufficiently long explanation."
    difficulty_level := some 3
    points := some 1 }

/-! ## core_generator.py : `_extract_json_from_response`

The extraction logic calls Python's `json.loads`, which is standard
library code, not repository code; it is embedded below as a strict
recursive-descent JSON parser (`jsonLoadsL`), faithful to `json.loads`
on the payloads at hand with two documented restrictions: numerals are
integers (no fraction/exponent forms) and a `u`-escape denotes a single
code point. -/

/-- JSON document values. -/
inductive Json where
  | null
  | bool (b : Bool)
  | num (n : Int)
  | str (s : String)
  | arr (elems : List Json)
  | obj (members : List (String × Json))

/-- JSON whitespace (the characters `json.loads` skips between tokens). -/
def isJsonWs (c : Char) : Bool :=
  (c == ' ') || (c == '\t') || (c == '\n') || (c == '\r')

/-- Skip JSON whitespace. -/
def skipWs (l : List Char) : List Char :=
  l.dropWhile isJsonWs

/-- Single-character string escapes. -/
def escChar (e : Char) : Option Char :=
  if e = '\"' then some '\"'
  else if e = '\\' then some '\\'
  else if e = '/' then some '/'
  else if e = 'b' then some '\x08'
  else if e = 'f' then some '\x0c'
  else if e = 'n' then some '\n'
  else if e = 'r' then some '\r'
  else if e = 't' then some '\t'
  else none

/-- Hexadecimal digit value. -/
def hexVal (c : Char) : Option Nat :=
  if '0' ≤ c ∧ c ≤ '9' then some (c.toNat - '0'.toNat)
  else if 'a' ≤ c ∧ c ≤ 'f' then some (c.toNat - 'a'.toNat + 10)
  else if 'A' ≤ c ∧ c ≤ 'F' then some (c.toNat - 'A'.toNat + 10)
  else none

/-- Parse the body of a JSON string after the opening quote; returns the
decoded characters and the rest of the input after the closing quote.
Unescaped control characters are rejected, as in strict `json.loads`. -/
def parseStringBody : List Char → Option (List Char × List Char)
  | [] => none
  | c :: rest =>
    if c = '\"' then some ([], rest)
    else if c = '\\' then
      match rest with
      | [] => none
      | e :: rest2 =>
        if e = 'u' then
          match rest2 with
          | d1 :: d2 :: d3 :: d4 :: rest3 =>
            match hexVal d1, hexVal d2, hexVal d3, hexVal d4 with
            | some a, some b, some c2, some d =>
              (parseStringBody rest3).map (fun p =>
                (Char.ofNat (((a * 16 + b) * 16 + c2) * 16 + d) :: p.1, p.2))
            | _, _, _, _ => none
          | _ => none
        else
          match escChar e with
          | some ec => (parseStringBody rest2).map (fun p => (ec :: p.1, p.2))
          | none => none
    else if c.toNat < 32 then none
    else (parseStringBody rest).map (fun p => (c :: p.1, p.2))

/-- Decimal digits to a natural number. -/
def digitsToNat (ds : List Char) : Nat :=
  ds.foldl (fun a c => a * 10 + (c.toNat - '0'.toNat)) 0

/-- Parse an unsigned JSON integer numeral (leading zeros rejected). -/
def parseUnsignedInt (l : List Char) : Option (Nat × List Char) :=
  let ds := l.takeWhile Char.isDigit
  let rest := l.dropWhile Char.isDigit
  if ds = [] then none
  else if 1 < ds.length ∧ ds.head? = some '0' then none
  else some (digitsToNat ds, rest)

/-- Parse a JSON integer numeral with optional minus sign. -/
def parseIntNumber : List Char → Option (Int × List Char)
  | '-' :: rest => (parseUnsignedInt rest).map (fun p => (-(p.1 : Int), p.2))
  | l => (parseUnsignedInt l).map (fun p => ((p.1 : Int), p.2))

mutual

/-- Parse one JSON value, returning it and the remaining input. -/
def parseValue : Nat → List Char → Option (Json × List Char)
  | 0, _ => none
  | fuel + 1, l =>
    match skipWs l with
    | [] => none
    | c :: rest =>
      if c = '\"' then
        (parseStringBody rest).map (fun p => (Json.str (String.mk p.1), p.2))
      else if c = '\x7b' then
        match skipWs rest with
        | '\x7d' :: r2 => some (Json.obj [], r2)
        | _ => (parseMembers fuel rest).map (fun p => (Json.obj p.1, p.2))
      else if c = '[' then
        match skipWs rest with
        | ']' :: r2 => some (Json.arr [], r2)
        | _ => (parseElements fuel rest).map (fun p => (Json.arr p.1, p.2))
      else if c = 't' then
        match rest with
        | 'r' :: 'u' :: 'e' :: r2 => some (Json.bool true, r2)
        | _ => none
      else if c = 'f' then
        match rest with
        | 'a' :: 'l' :: 's' :: 'e' :: r2 => some (Json.bool false, r2)
        | _ => none
      else if c = 'n' then
        match rest with
        | 'u' :: 'l' :: 'l' :: r2 => some (Json.null, r2)
        | _ => none
      else
        (parseIntNumber (c :: rest)).map (fun p => (Json.num p.1, p.2))

/-- Parse the members of a JSON object after its opening brace (at least
one member; a trailing comma is a parse error, as in `json.loads`). -/
def parseMembers : Nat → List Char → Option (List (String × Json) × List Char)
  | 0, _ => none
  | fuel + 1, l =>
    match skipWs l with
    | '\"' :: rest =>
      match parseStringBody rest with
      | none => none
      | some (key, r1) =>
        match skipWs r1 with
        | ':' :: r2 =>
          match parseValue fuel r2 with
          | none => none
          | some (v, r3) =>
            match skipWs r3 with
            | ',' :: r4 =>
              (parseMembers fuel r4).map (fun p =>
                ((String.mk key, v) :: p.1, p.2))
            | '\x7d' :: r4 => some ([(String.mk key, v)], r4)
            | _ => none
        | _ => none
    | _ => none

/-- Parse the elements of a JSON array after its opening bracket (at
least one element). -/
def parseElements : Nat → List Char → Option (List Json × List Char)
  | 0, _ => none
  | fuel + 1, l =>
    match parseValue fuel l with
    | none => none
    | some (v, r1) =>
      match skipWs r1 with
      | ',' :: r2 => (parseElements fuel r2).map (fun p => (v :: p.1, p.2))
      | ']' :: r2 => some ([v], r2)
      | _ => none

end

/-- Model of strict `json.loads`: parse one value and require only
whitespace after it. -/
def jsonLoadsL (l : List Char) : Option Json :=
  match parseValue (l.length + 1) l with
  | some (v, rest) => if skipWs rest = [] then some v else none
  | none => none

/-- `json.loads` on a string. -/
def jsonLoads (s : String) : Option Json :=
  jsonLoadsL s.toList

/-- Scan whitespace up to the given closing delimiter; on success return
the whitespace and the input after the delimiter. -/
def wsThenClose (close : Char) : List Char → Option (List Char × List Char)
  | [] => none
  | c :: t =>
    if c = close then some ([], t)
    else if isPyWs c then (wsThenClose close t).map (fun p => (c :: p.1, p.2))
    else none

/-- One `re.sub` pass replacing every `,\s*C` with `\s*C` (`C` the given
closing delimiter), scanning left to right and resuming after each
match, as the source's trailing-comma cleanup does.  The fuel is the
input length, which the scan never exhausts. -/
def subCommaCloseFuel (close : Char) : Nat → List Char → List Char
  | 0, l => l
  | _ + 1, [] => []
  | fuel + 1, c :: rest =>
    if c = ',' then
      match wsThenClose close rest with
      | some (ws, t) => ws ++ close :: subCommaCloseFuel close fuel t
      | none => c :: subCommaCloseFuel close fuel rest
    else
      c :: subCommaCloseFuel close fuel rest

/-- The `re.sub` pass at its adequate fuel. -/
def subCommaClose (close : Char) (l : List Char) : List Char :=
  subCommaCloseFuel close l.length l

/-- Index of the last closing brace (`rfind`), if any. -/
def lastBraceIdx (l : List Char) : Option Nat :=
  match List.findIdx? (fun c => c == '\x7d') l.reverse with
  | some k => some (l.length - 1 - k)
  | none => none

/-- Drop everything after the last closing brace (no change when there is
none), as `_clean_json_content` does. -/
def truncAfterLastBrace (l : List Char) : List Char :=
  match lastBraceIdx l with
  | some e => l.take (e + 1)
  | none => l

/-- `_clean_json_content`: strip trailing commas before closing braces,
then before closing brackets, then truncate after the last brace. -/
def cleanJsonContent (l : List Char) : List Char :=
  truncAfterLastBrace (subCommaClose ']' (subCommaClose '\x7d' l))

/-- `_extract_json_from_response`: take the substring from the first
opening brace to the last closing brace, parse it strictly, and on
failure parse its cleaned-up form; any failure yields `none` (the source
logs and returns `None`, never raising). -/
def extractJsonL (response : List Char) : Option Json :=
  match List.findIdx? (fun c => c == '\x7b') response with
  | none => none
  | some s =>
    match lastBraceIdx response with
    | none => none
    | some e =>
      let content := (response.drop s).take (e + 1 - s)
      match jsonLoadsL content with
      | some j => some j
      | none => jsonLoadsL (cleanJsonContent content)

/-- `_extract_json_from_response` on a string. -/
def extractJson (s : String) : Option Json :=
  extractJsonL s.toList

/-! ## Theorems -/

/-- Folding the score deductions equals subtracting their sum. -/
lemma foldl_sub_deduction (l : List ValidationIssue) (a : ℚ) :
    l.foldl (fun s i => s - severityDeduction i.severity) a
      = a - (l.map (fun i => severityDeduction i.severity)).sum := by
  induction l generalizing a with
  | nil => simp
  | cons x xs ih => simp [List.foldl_cons, ih, sub_sub]

lemma countSeverity_cons (x : ValidationIssue) (xs : List ValidationIssue)
    (s : ValidationSeverity) :
    countSeverity (x :: xs) s
      = countSeverity xs s + (if x.severity = s then 1 else 0) := by
  by_cases h : x.severity = s
  · simp [countSeverity, List.filter_cons, h]
  · simp [countSeverity, List.filter_cons, h]

/-- The summed deductions are the per-severity weighted counts. -/
lemma deduction_sum_eq_counts (l : List ValidationIssue) :
    (l.map (fun i => severityDeduction i.severity)).sum
      = 3/10 * countSeverity l .critical + 2/10 * countSeverity l .error
        + 1/10 * countSeverity l .warning + 1/20 * countSeverity l .info := by
  induction l with
  | nil => simp [countSeverity]
  | cons x xs ih =>
    rw [List.map_cons, List.sum_cons, ih, countSeverity_cons, countSeverity_cons,
      countSeverity_cons, countSeverity_cons]
    cases hs : x.severity <;> simp [severityDeduction, hs] <;> ring

lemma severityDeduction_nonneg (s : ValidationSeverity) : 0 ≤ severityDeduction s := by
  cases s <;> norm_num [severityDeduction]

/-- C2: the quality score equals 1.0 minus 0.30 per critical, 0.20 per
error, 0.10 per warning and 0.05 per info issue, clamped to [0, 1]; adding
an issue (at the front or the back) never increases the score; the score
always lies in [0, 1]. -/
theorem C2_quality_score_formula_monotone_bounded
    (l : List ValidationIssue) (i : ValidationIssue) :
    calculateQualityScore l
      = max 0 (min 1 (1 - (3/10 * countSeverity l .critical
          + 2/10 * countSeverity l .error + 1/10 * countSeverity l .warning
          + 1/20 * countSeverity l .info)))
    ∧ calculateQualityScore (i :: l) ≤ calculateQualityScore l
    ∧ calculateQualityScore (l ++ [i]) ≤ calculateQualityScore l
    ∧ 0 ≤ calculateQualityScore l ∧ calculateQualityScore l ≤ 1 := by
  have hbase : ∀ m : List ValidationIssue,
      calculateQualityScore m
        = max 0 (min 1 (1 - (m.map (fun i => severityDeduction i.severity)).sum)) := by
    intro m
    simp [calculateQualityScore, foldl_sub_deduction]
  have hmono : ∀ m m' : List ValidationIssue,
      (m.map (fun i => severityDeduction i.severity)).sum
        ≤ (m'.map (fun i => severityDeduction i.severity)).sum →
      calculateQualityScore m' ≤ calculateQualityScore m := by
    intro m m' h
    rw [hbase, hbase]
    exact max_le_max le_rfl (min_le_min le_rfl (by linarith))
  refine ⟨by rw [hbase, deduction_sum_eq_counts], ?_, ?_, ?_, ?_⟩
  · exact hmono l (i :: l) (by
      simp only [List.map_cons, List.sum_cons]
      have := severityDeduction_nonneg i.severity
      linarith)
  · exact hmono l (l ++ [i]) (by
      simp only [List.map_append, List.sum_append, List.map_cons, List.map_nil,
        List.sum_cons, List.sum_nil]
      have := severityDeduction_nonneg i.severity
      linarith)
  · rw [hbase]; exact le_max_left 0 _
  · rw [hbase]
    exact max_le (by norm_num) (min_le_left 1 _)

/-- C1: an ExamPaper construction with a non-empty question list succeeds
only if the summed question marks equal the declared total marks, and when
the sum differs the construction fails (no object is produced). -/
theorem C1_exam_paper_marks_invariant (title instructions : String)
    (duration_minutes total_marks : Int) (questions : List ExamQuestion)
    (topic_id subject_name : String) (difficulty_level : Int)
    (hne : questions ≠ []) :
    (∀ p, mkExamPaper title instructions duration_minutes total_marks questions
        topic_id subject_name difficulty_level = .ok p →
        marksSum questions = total_marks ∧ p.total_marks = total_marks)
    ∧ (marksSum questions ≠ total_marks →
        (mkExamPaper title instructions duration_minutes total_marks questions
          topic_id subject_name difficulty_level).isOk = false) := by
  constructor
  · intro p hp
    unfold mkExamPaper at hp
    split_ifs at hp with h1 h2 h3 h4
    simp only [Except.ok.injEq] at hp
    subst hp
    exact ⟨not_not.mp h4, rfl⟩
  · intro hsum
    unfold mkExamPaper
    split_ifs with h1 h2 h3
    · rfl
    · rfl
    · rfl
    · rfl

/-- A concrete exam question used by witnesses. -/
def sampleExamQuestion : ExamQuestion :=
  { question_text := "Explain the process of osmosis in plant cells."
    marks := 5
    answer_text := "Water moves across a partially permeable membrane."
    explanation := "Award marks for mention of water potential."
    question_order := 1 }

/-- C1 witness: at a concrete paper whose single 5-mark question does not
match the declared 7 total marks, construction fails. -/
theorem C1_exam_paper_marks_invariant_witness :
    (mkExamPaper "Paper 1" "Answer all questions." 60 7 [sampleExamQuestion]
      "topic-1" "Biology" 3).isOk = false :=
  (C1_exam_paper_marks_invariant "Paper 1" "Answer all questions." 60 7
      [sampleExamQuestion] "topic-1" "Biology" 3 (by simp)).2 (by decide)

lemma callOllamaAux_attempts_le (oracle : Nat → Option String) (f a : Nat) :
    (callOllamaAux oracle a f).2.1 ≤ f := by
  induction f generalizing a with
  | zero => simp [callOllamaAux]
  | succ fuel ih =>
    unfold callOllamaAux
    cases oracle a with
    | some s => simp
    | none =>
      by_cases hf : fuel = 0
      · simp [hf]
      · simpa [hf] using ih (a + 1)

lemma callOllamaAux_all_fail (oracle : Nat → Option String) (f a : Nat)
    (h : ∀ i, a ≤ i → i < a + f → oracle i = none) :
    callOllamaAux oracle a f
      = (none, f, (List.range (f - 1)).map (fun j => 2 ^ (a + j))) := by
  induction f generalizing a with
  | zero => simp [callOllamaAux]
  | succ fuel ih =>
    unfold callOllamaAux
    rw [h a le_rfl (by omega)]
    by_cases hf : fuel = 0
    · simp [hf]
    · obtain ⟨g, rfl⟩ := Nat.exists_eq_succ_of_ne_zero hf
      rw [if_neg hf, ih (a + 1) (fun i hi hi2 => h i (by omega) (by omega))]
      have hlist : (List.range (g + 1)).map (fun j => 2 ^ (a + j))
          = 2 ^ a :: (List.range g).map (fun j => 2 ^ (a + 1 + j)) := by
        rw [List.range_succ_eq_map, List.map_cons, List.map_map]
        refine congrArg _ (List.map_congr_left fun j _ => ?_)
        have hj : a + (j + 1) = a + 1 + j := by omega
        simp [Function.comp, hj]
      simp [hlist]

lemma callOllamaAux_success (oracle : Nat → Option String) (k : Nat)
    (s : String) (f a : Nat) (hk : k < f)
    (hfail : ∀ i, a ≤ i → i < a + k → oracle i = none)
    (hs : oracle (a + k) = some s) :
    callOllamaAux oracle a f
      = (some s, k + 1, (List.range k).map (fun j => 2 ^ (a + j))) := by
  induction k generalizing a f with
  | zero =>
    obtain ⟨g, rfl⟩ := Nat.exists_eq_succ_of_ne_zero (show f ≠ 0 by omega)
    simp only [Nat.add_zero] at hs
    unfold callOllamaAux
    rw [hs]
    simp
  | succ j ih =>
    obtain ⟨g, rfl⟩ := Nat.exists_eq_succ_of_ne_zero (show f ≠ 0 by omega)
    unfold callOllamaAux
    rw [hfail a le_rfl (by omega)]
    have hg : g ≠ 0 := by omega
    have hs' : oracle (a + 1 + j) = some s := by
      rw [show a + 1 + j = a + (j + 1) by omega]
      exact hs
    rw [if_neg hg,
      ih g (a + 1) (by omega) (fun i hi hi2 => hfail i (by omega) (by omega)) hs']
    have hlist : (List.range (j + 1)).map (fun i => 2 ^ (a + i))
        = 2 ^ a :: (List.range j).map (fun i => 2 ^ (a + 1 + i)) := by
      rw [List.range_succ_eq_map, List.map_cons, List.map_map]
      refine congrArg _ (List.map_congr_left fun i _ => ?_)
      have hi : a + (i + 1) = a + 1 + i := by omega
      simp [Function.comp, hi]
    simp [hlist]

/-- C3: the model-call adapter makes at most `max_retries` attempts; when
every attempt fails it makes exactly `max_retries` attempts, returns the
no-result sentinel, and sleeps `2 ^ attempt` seconds after every failed
attempt except the final one; when attempt `k` is the first to succeed it
returns that attempt's raw reply after exactly `k + 1` attempts, with the
back-off sleeps `2 ^ 0 … 2 ^ (k - 1)` before it. -/
theorem C3_call_ollama_retry_backoff (oracle : Nat → Option String)
    (cfg : GenerationConfig) :
    (callOllama oracle cfg).2.1 ≤ cfg.max_retries
    ∧ ((∀ i, i < cfg.max_retries → oracle i = none) →
        callOllama oracle cfg
          = (none, cfg.max_retries,
              (List.range (cfg.max_retries - 1)).map (fun j => 2 ^ j)))
    ∧ (∀ k s, k < cfg.max_retries → (∀ i, i < k → oracle i = none) →
        oracle k = some s →
        callOllama oracle cfg
          = (some s, k + 1, (List.range k).map (fun j => 2 ^ j))) := by
  refine ⟨callOllamaAux_attempts_le oracle cfg.max_retries 0, ?_, ?_⟩
  · intro h
    have := callOllamaAux_all_fail oracle cfg.max_retries 0
      (fun i _ hi2 => h i (by omega))
    simpa using this
  · intro k s hk hfail hs
    have := callOllamaAux_success oracle k s cfg.max_retries 0 hk
      (fun i _ hi2 => hfail i (by omega)) (by simpa using hs)
    simpa using this

/-- C3 witness: with `max_retries = 3` and an oracle that always fails,
the adapter makes exactly 3 attempts, returns no result, and sleeps 1 s
then 2 s between the attempts; with an oracle succeeding at attempt 1 it
returns that reply after 2 attempts. -/
theorem C3_call_ollama_retry_backoff_witness :
    callOllama (fun _ => none) { max_retries := 3 } = (none, 3, [1, 2])
    ∧ callOllama (fun i => if i = 1 then some "reply" else none)
        { max_retries := 3 } = (some "reply", 2, [1]) := by
  constructor
  · have h := (C3_call_ollama_retry_backoff (fun _ => none)
      { max_retries := 3 }).2.1 (fun i _ => rfl)
    rw [h]; rfl
  · have h := (C3_call_ollama_retry_backoff
      (fun i => if i = 1 then some "reply" else none) { max_retries := 3 }).2.2
      1 "reply" (by decide) (by intro i hi; interval_cases i; rfl) rfl
    rw [h]; rfl

lemma needLe_trans (a b c : TopicGenerationNeed) :
    needLe a b = true → needLe b c = true → needLe a c = true := by
  simp only [needLe, Bool.or_eq_true, Bool.and_eq_true, decide_eq_true_eq]
  omega

lemma needLe_total (a b : TopicGenerationNeed) :
    (needLe a b || needLe b a) = true := by
  simp only [needLe, Bool.or_eq_true, Bool.and_eq_true, decide_eq_true_eq]
  omega

/-- C5: the needs analyzer classifies `current < min` as high priority and
`min ≤ current < target` as medium, both with need
`min (target - current) 20` (capped at 20); `current ≥ target` is
excluded; and the returned list is ordered by priority weight descending,
then needed count descending. -/
theorem C5_analyze_needs (cfg : BatchGenerationConfig)
    (lookup : String → Option TopicInfo) (subjectFilter : Option String)
    (rows : List TopicCountRow)
    (hmt : cfg.min_questions_per_topic ≤ cfg.target_questions_per_topic) :
    (analyzeGenerationNeeds cfg lookup subjectFilter rows).Pairwise
      (fun a b => priorityWeight b.priority < priorityWeight a.priority
        ∨ (priorityWeight a.priority = priorityWeight b.priority
            ∧ b.needed_questions ≤ a.needed_questions))
    ∧ (∀ row, cfg.target_questions_per_topic ≤ row.total_questions →
        classifyTopic cfg lookup subjectFilter row = none)
    ∧ (∀ row need, classifyTopic cfg lookup subjectFilter row = some need →
        need.current_question_count = row.total_questions
        ∧ row.total_questions < cfg.target_questions_per_topic
        ∧ need.needed_questions
            = min (cfg.target_questions_per_topic - row.total_questions) 20
        ∧ need.needed_questions ≤ 20
        ∧ (row.total_questions < cfg.min_questions_per_topic →
            need.priority = .high)
        ∧ (cfg.min_questions_per_topic ≤ row.total_questions →
            need.priority = .medium)) := by
  refine ⟨?_, ?_, ?_⟩
  · have hs := List.sorted_mergeSort needLe_trans needLe_total
      (rows.filterMap (classifyTopic cfg lookup subjectFilter))
    refine hs.imp (fun h => ?_)
    simpa only [needLe, Bool.or_eq_true, Bool.and_eq_true, decide_eq_true_eq] using h
  · intro row hrow
    unfold classifyTopic
    dsimp only
    have h2 : ¬ row.total_questions < cfg.min_questions_per_topic := by omega
    have h3 : ¬ row.total_questions < cfg.target_questions_per_topic := by omega
    split_ifs
    · rfl
    · rfl
  · intro row need hneed
    unfold classifyTopic at hneed
    dsimp only at hneed
    split_ifs at hneed with h1 h2 h3
    · cases hlook : lookup row.topic_id with
      | none => rw [hlook] at hneed; simp at hneed
      | some info =>
        rw [hlook] at hneed
        simp only [Option.some.injEq] at hneed
        subst hneed
        refine ⟨rfl, by omega, rfl, min_le_right _ _, fun _ => rfl, fun h => ?_⟩
        omega
    · cases hlook : lookup row.topic_id with
      | none => rw [hlook] at hneed; simp at hneed
      | some info =>
        rw [hlook] at hneed
        simp only [Option.some.injEq] at hneed
        subst hneed
        exact ⟨rfl, h3, rfl, min_le_right _ _, fun h => absurd h h2, fun _ => rfl⟩

/-- A concrete topic used by the C5 and C7 witnesses. -/
def sampleTopicInfo : TopicInfo :=
  { id := "t1"
    title := "Algebra"
    subject_name := "Mathematics"
    difficulty_level := 3
    syllabus_code := "0580.1"
    description := "Linear equations" }

/-- Concrete topic lookup for the C5 witness. -/
def sampleLookup : String → Option TopicInfo :=
  fun i => if i = "t1" then some sampleTopicInfo else none

/-- Concrete count row: 5 existing questions for topic t1. -/
def sampleRow : TopicCountRow :=
  { topic_id := "t1", subject_name := "Mathematics", total_questions := 5 }

/-- The need entry produced for `sampleRow` under the default thresholds. -/
def sampleNeed : TopicGenerationNeed :=
  { topic_info := sampleTopicInfo
    current_question_count := 5
    needed_questions := 20
    priority := .high }

/-- C5 witness: with the default thresholds (min 20, target 50), a topic
with 5 questions is classified high priority with need 45 capped to 20. -/
theorem C5_analyze_needs_witness :
    classifyTopic {} sampleLookup none sampleRow = some sampleNeed
    ∧ sampleNeed.priority = Priority.high
    ∧ sampleNeed.needed_questions = 20 := by
  have h := (C5_analyze_needs {} sampleLookup none [sampleRow]
    (by decide)).2.2 sampleRow sampleNeed (by decide)
  exact ⟨by decide, h.2.2.2.2.1 (by decide), by rw [h.2.2.1]; decide⟩

/-- C7: a batch run started with the daily counter at or above the daily
budget returns immediately: zero topics processed, zero successes and
failures, zero questions, the explicit limit-reached error, and the daily
counter unchanged (no generation task is dispatched). -/
theorem C7_daily_limit_fail_fast (cfg : BatchGenerationConfig) (daily : Nat)
    (needs : List TopicGenerationNeed)
    (outcome : TopicGenerationNeed → TopicOutcome) (maxTopics : Option Nat)
    (h : cfg.max_daily_generations ≤ daily) :
    runBatchGeneration cfg daily needs outcome maxTopics
      = ({ total_topics_processed := 0
           successful_generations := 0
           failed_generations := 0
           total_questions_generated := 0
           average_quality_score := 0
           errors := ["Daily generation limit reached"] }, daily) := by
  unfold runBatchGeneration
  rw [if_pos h]

/-- C7 witness: daily budget 100 already fully consumed, with one pending
need and an outcome that would succeed — the run still fails fast. -/
theorem C7_daily_limit_fail_fast_witness :
    runBatchGeneration {} 100 [sampleNeed] (fun _ => (true, 5, [])) none
      = ({ total_topics_processed := 0
           successful_generations := 0
           failed_generations := 0
           total_questions_generated := 0
           average_quality_score := 0
           errors := ["Daily generation limit reached"] }, 100) :=
  C7_daily_limit_fail_fast {} 100 [sampleNeed] (fun _ => (true, 5, [])) none
    (by decide)

/-- C9: the chat request constructed by `_call_ollama` carries no
per-request timeout at all — in particular the configured
`timeout_seconds` is not applied to the model request (it is only
validated in `validate_config`, never used). -/
theorem C9_config_timeout_not_applied (cfg : GenerationConfig) :
    (mkChatRequest cfg).timeout = none
    ∧ (mkChatRequest cfg).timeout ≠ some cfg.timeout_seconds :=
  ⟨rfl, by simp [mkChatRequest]⟩

lemma examAttemptLoop_all_rejected (oracle : Nat → Option ExamJson)
    (total : Int) (f a : Nat)
    (h : ∀ i, a ≤ i → i < a + f → ∀ j, oracle i = some j →
      examAccepted total (buildAttemptQuestions j.questions) = false) :
    examAttemptLoop oracle total a f = none := by
  induction f generalizing a with
  | zero => rfl
  | succ fuel ih =>
    unfold examAttemptLoop
    cases hj : oracle a with
    | none => exact ih (a + 1) (fun i hi hi2 j hj2 => h i (by omega) (by omega) j hj2)
    | some j =>
      have hfalse := h a le_rfl (by omega) j hj
      simp only [hfalse, Bool.false_eq_true, if_false]
      exact ih (a + 1) (fun i hi hi2 j2 hj2 => h i (by omega) (by omega) j2 hj2)

lemma examAttemptLoop_first_accepted (oracle : Nat → Option ExamJson)
    (total : Int) (k : Nat) (j : ExamJson) (f a : Nat) (hk : k < f)
    (hfail : ∀ i, a ≤ i → i < a + k → ∀ j2, oracle i = some j2 →
      examAccepted total (buildAttemptQuestions j2.questions) = false)
    (hj : oracle (a + k) = some j)
    (hacc : examAccepted total (buildAttemptQuestions j.questions) = true) :
    examAttemptLoop oracle total a f
      = some (j, buildAttemptQuestions j.questions) := by
  induction k generalizing a f with
  | zero =>
    obtain ⟨g, rfl⟩ := Nat.exists_eq_succ_of_ne_zero (show f ≠ 0 by omega)
    simp only [Nat.add_zero] at hj
    unfold examAttemptLoop
    rw [hj]
    simp only [hacc, if_true]
  | succ n ih =>
    obtain ⟨g, rfl⟩ := Nat.exists_eq_succ_of_ne_zero (show f ≠ 0 by omega)
    have hj' : oracle (a + 1 + n) = some j := by
      rw [show a + 1 + n = a + (n + 1) by omega]
      exact hj
    unfold examAttemptLoop
    cases ho : oracle a with
    | none =>
      exact ih g (a + 1) (by omega)
        (fun i hi hi2 j2 hj2 => hfail i (by omega) (by omega) j2 hj2) hj'
    | some j2 =>
      have hfalse := hfail a le_rfl (by omega) j2 ho
      simp only [hfalse, Bool.false_eq_true, if_false]
      exact ih g (a + 1) (by omega)
        (fun i hi hi2 j3 hj3 => hfail i (by omega) (by omega) j3 hj3) hj'

lemma mkExamPaper_ok_fields (t ins : String) (d tm : Int)
    (qs : List ExamQuestion) (tid sn : String) (dl : Int) (p : ExamPaper) :
    mkExamPaper t ins d tm qs tid sn dl = .ok p →
    p.total_marks = tm ∧ p.questions = qs := by
  intro h
  unfold mkExamPaper at h
  split_ifs at h
  simp only [Except.ok.injEq] at h
  subst h
  exact ⟨rfl, rfl⟩

/-- C6: `generate_exam_paper` makes up to 3 attempts; when every parsed
reply is rejected by the acceptance test the result is `None`; the first
accepted attempt wins; an attempt is accepted iff its constructed
question list is non-empty and its summed marks are within 20% of the
requested total; and any returned paper's `total_marks` is the recomputed
sum of its questions' marks. -/
theorem C6_generate_exam_paper_attempts (oracle : Nat → Option ExamJson)
    (topic : TopicInfo) (total : Int) :
    ((∀ i, i < 3 → ∀ j, oracle i = some j →
        examAccepted total (buildAttemptQuestions j.questions) = false) →
      generateExamPaper oracle topic total = none)
    ∧ (∀ k j, k < 3 →
        (∀ i, i < k → ∀ j2, oracle i = some j2 →
          examAccepted total (buildAttemptQuestions j2.questions) = false) →
        oracle k = some j →
        examAccepted total (buildAttemptQuestions j.questions) = true →
        examAttemptLoop oracle total 0 3
          = some (j, buildAttemptQuestions j.questions))
    ∧ (∀ qs, examAccepted total qs = true ↔
        (qs ≠ [] ∧ |(marksSum qs : ℚ) - (total : ℚ)| ≤ (total : ℚ) * (2/10)))
    ∧ (∀ p, generateExamPaper oracle topic total = some p →
        p.total_marks = marksSum p.questions) := by
  refine ⟨?_, ?_, ?_, ?_⟩
  · intro h
    unfold generateExamPaper
    rw [examAttemptLoop_all_rejected oracle total 3 0
      (fun i _ hi2 j hj => h i (by omega) j hj)]
  · intro k j hk hfail hj hacc
    exact examAttemptLoop_first_accepted oracle total k j 3 0 hk
      (fun i _ hi2 j2 hj2 => hfail i (by omega) j2 hj2) (by simpa using hj) hacc
  · intro qs
    simp [examAccepted]
  · intro p hp
    unfold generateExamPaper at hp
    cases hloop : examAttemptLoop oracle total 0 3 with
    | none => rw [hloop] at hp; simp at hp
    | some rq =>
      obtain ⟨result, qs⟩ := rq
      rw [hloop] at hp
      dsimp only at hp
      cases hmk : mkExamPaper
          (result.title.getD (topic.subject_name ++ ": " ++ topic.title))
          (result.instructions.getD "Answer ALL questions. Show all working clearly.")
          (result.duration_minutes.getD (if marksSum qs ≤ 20 then 60 else 90))
          (marksSum qs) qs topic.id topic.subject_name topic.difficulty_level with
      | error e => rw [hmk] at hp; simp at hp
      | ok p2 =>
        rw [hmk] at hp
        simp only [Option.some.injEq] at hp
        subst hp
        obtain ⟨hm, hq⟩ := mkExamPaper_ok_fields _ _ _ _ _ _ _ _ _ hmk
        rw [hm, hq]

/-- The exam question the conversion loop constructs from
`sampleRawQ13`. -/
def sampleExamQ13 : ExamQuestion :=
  { question_text := "State the law of Ohm and define resistance."
    marks := 13
    answer_text := "Voltage equals current times resistance."
    explanation := "One mark per correct statement."
    question_order := 1
    question_type := "structured" }

/-- A parsed reply whose single question is worth 13 marks. -/
def sampleRawQ13 : RawExamQuestion :=
  { question_text := some "State the law of Ohm and define resistance."
    marks := some 13
    answer_text := some "Voltage equals current times resistance."
    explanation := some "One mark per correct statement."
    question_order := some 1
    question_type := some "structured" }

/-- The full parsed reply for the C6 witness. -/
def sampleExamJson13 : ExamJson :=
  { title := some "Physics Paper 1"
    instructions := some "Answer ALL questions."
    duration_minutes := some 60
    questions := [sampleRawQ13] }

/-- C6 witness: requesting 20 total marks while every attempt's reply
sums to 13 marks (35% off) makes `generate_exam_paper` return `None`. -/
theorem C6_generate_exam_paper_attempts_witness :
    generateExamPaper (fun _ => some sampleExamJson13) sampleTopicInfo 20
      = none := by
  apply (C6_generate_exam_paper_attempts
    (fun _ => some sampleExamJson13) sampleTopicInfo 20).1
  intro i hi j hj
  cases hj
  have hqs : buildAttemptQuestions sampleExamJson13.questions = [sampleExamQ13] := rfl
  have hms : marksSum [sampleExamQ13] = 13 := rfl
  have habs : ¬ (|(13 : ℚ) - (20 : ℚ)| ≤ (20 : ℚ) * (2/10)) := by norm_num
  rw [hqs]
  simp only [examAccepted, hms]
  simp [habs]

lemma isValid_of_issues_iff (l : List ValidationIssue) :
    (!(l.any (fun i => decide (i.severity = .critical ∨ i.severity = .error)))) = true
      ↔ ∀ i ∈ l, i.severity ≠ .error ∧ i.severity ≠ .critical := by
  simp only [Bool.not_eq_true', List.any_eq_false, decide_eq_true_eq, not_or]
  constructor
  · intro h i hi
    exact ⟨(h i hi).2, (h i hi).1⟩
  · intro h i hi
    exact ⟨(h i hi).2, (h i hi).1⟩

/-- C8: the quiz-question validator marks a result valid iff none of its
issues has severity error or critical; warnings and info alone never make
it invalid. -/
theorem C8_is_valid_iff_no_error_critical (q : QuizQuestion) :
    (validateQuizQuestion q).is_valid = true
      ↔ ∀ i ∈ (validateQuizQuestion q).issues,
          i.severity ≠ .error ∧ i.severity ≠ .critical := by
  unfold validateQuizQuestion
  exact isValid_of_issues_iff _

lemma quizLoop_stuck_on_empty_batches (fuel : Nat) :
    ∀ n, quizLoop (fun _ => some [badRawQuiz]) 3 1 [] n fuel = none := by
  induction fuel with
  | zero => intro n; rfl
  | succ f ih =>
    intro n
    unfold quizLoop
    rw [if_neg (by norm_num : ¬ (1 : Int) ≤ 0)]
    show quizLoop _ 3 (1 - ((buildQuizBatch 3 [badRawQuiz]).length : Int))
      ([] ++ buildQuizBatch 3 [badRawQuiz]) (n + 1) f = none
    have hb : buildQuizBatch 3 [badRawQuiz] = [] := rfl
    rw [hb]
    simpa using ih (n + 1)

/-- C10: `generate_quiz_questions` does NOT always terminate — when every
model reply parses successfully but yields zero constructible questions,
the remaining count is never decremented and no break condition fires, so
for every fuel bound the loop is still running (each iteration issuing a
fresh model call). -/
theorem C10_quiz_generation_nonterminating (fuel : Nat) :
    generateQuizQuestions (fun _ => some [badRawQuiz]) 3 1 fuel = none :=
  quizLoop_stuck_on_empty_batches fuel 1

/-- C4 counterexample: the text is prose ++ well-formed JSON object ++
prose, but the leading prose contains a brace, so the first-to-last-brace
substring is not the object and extraction returns the sentinel instead
of the embedded object. -/
theorem C4_extract_json_counterexample :
    ("prose \x7b x " ++ "\x7b\"a\": 1\x7d" ++ " end" : String)
        = "prose \x7b x \x7b\"a\": 1\x7d end"
    ∧ jsonLoads "\x7b\"a\": 1\x7d" = some (Json.obj [("a", Json.num 1)])
    ∧ extractJson "prose \x7b x \x7b\"a\": 1\x7d end" = none :=
  ⟨rfl, rfl, rfl⟩

lemma findIdx?_none_of_not_mem {p : Char → Bool} (c0 : Char) (l : List Char)
    (hp : ∀ c, p c = true ↔ c = c0) (h : c0 ∉ l) :
    List.findIdx? p l = none := by
  rw [List.findIdx?_eq_none_iff]
  intro x hx
  by_contra hcon
  have hx0 : p x = true := by
    cases hpx : p x
    · exact absurd hpx hcon
    · rfl
  exact h ((hp x).mp hx0 ▸ hx)

/-- C4 amended: when the leading prose contains no opening brace and the
trailing prose contains no closing brace, the extraction returns exactly
the embedded object; and with no opening or no closing brace present at
all, it returns the sentinel. -/
theorem C4_extract_json_amended :
    (∀ (p1 j p2 : List Char) (o : Json),
      '\x7b' ∉ p1 → '\x7d' ∉ p2 →
      j.head? = some '\x7b' → j.getLast? = some '\x7d' →
      jsonLoadsL j = some o →
      extractJsonL (p1 ++ j ++ p2) = some o)
    ∧ (∀ s : List Char, ('\x7b' ∉ s ∨ '\x7d' ∉ s) → extractJsonL s = none) := by
  constructor
  · intro p1 j p2 o h1 h2 hh hl hj
    have hlen : 1 ≤ j.length := by
      cases j
      · simp at hh
      · simp
    have hp1 : List.findIdx? (fun c => c == '\x7b') p1 = none :=
      findIdx?_none_of_not_mem '\x7b' p1 (fun c => by simp) h1
    have hA : List.findIdx? (fun c => c == '\x7b') (p1 ++ j ++ p2)
        = some p1.length := by
      obtain ⟨c, j', rfl⟩ : ∃ c j', j = c :: j' := by
        cases j
        · simp at hh
        · exact ⟨_, _, rfl⟩
      have hc : c = '\x7b' := by simpa using hh
      subst hc
      rw [List.append_assoc, List.findIdx?_append, hp1, List.cons_append,
        List.findIdx?_cons]
      simp
    have hp2rev : List.findIdx? (fun c => c == '\x7d') p2.reverse = none :=
      findIdx?_none_of_not_mem '\x7d' p2.reverse (fun c => by simp)
        (by simpa using h2)
    have hrevhead : j.reverse.head? = some '\x7d' := by
      rw [List.head?_reverse]
      exact hl
    obtain ⟨c, jr, hjr⟩ : ∃ c jr, j.reverse = c :: jr := by
      cases hcase : j.reverse
      · rw [hcase] at hrevhead
        simp at hrevhead
      · exact ⟨_, _, rfl⟩
    have hc : c = '\x7d' := by
      rw [hjr] at hrevhead
      simpa using hrevhead
    subst hc
    have hfind : List.findIdx? (fun c => c == '\x7d') (p1 ++ j ++ p2).reverse
        = some p2.length := by
      rw [List.append_assoc, List.reverse_append, List.reverse_append, hjr,
        List.findIdx?_append, List.findIdx?_append, hp2rev,
        List.findIdx?_cons]
      simp
    have hB : lastBraceIdx (p1 ++ j ++ p2)
        = some (p1.length + j.length - 1) := by
      unfold lastBraceIdx
      rw [hfind]
      dsimp only
      have harith : (p1 ++ j ++ p2).length - 1 - p2.length
          = p1.length + j.length - 1 := by
        simp only [List.length_append]
        omega
      rw [harith]
    unfold extractJsonL
    rw [hA, hB]
    dsimp only
    have hC : ((p1 ++ j ++ p2).drop p1.length).take
        (p1.length + j.length - 1 + 1 - p1.length) = j := by
      have harith : p1.length + j.length - 1 + 1 - p1.length = j.length := by
        omega
      rw [harith, List.append_assoc, List.drop_left, List.take_left]
    rw [hC, hj]
  · intro s hs
    cases hs with
    | inl h =>
      have : List.findIdx? (fun c => c == '\x7b') s = none :=
        findIdx?_none_of_not_mem '\x7b' s (fun c => by simp) h
      unfold extractJsonL
      rw [this]
    | inr h =>
      unfold extractJsonL
      cases hf : List.findIdx? (fun c => c == '\x7b') s with
      | none => rfl
      | some k =>
        have hrev : List.findIdx? (fun c => c == '\x7d') s.reverse = none :=
          findIdx?_none_of_not_mem '\x7d' s.reverse (fun c => by simp)
            (by simpa using h)
        unfold lastBraceIdx
        rw [hrev]

/-- C4 witness for the amended claim: prose without braces around a
well-formed object; the extraction recovers exactly that object. -/
theorem C4_extract_json_amended_witness :
    extractJsonL ("Here is the JSON: ".toList ++ "\x7b\"a\": 1\x7d".toList
        ++ " Done.".toList)
      = some (Json.obj [("a", Json.num 1)]) :=
  C4_extract_json_amended.1 "Here is the JSON: ".toList
    "\x7b\"a\": 1\x7d".toList " Done.".toList (Json.obj [("a", Json.num 1)])
    (by decide) (by decide) rfl rfl rfl

end OllamaGen
